import Mathlib

/-!
# Tab Harvester backend — verification of the request pipeline

Shallow embedding of `src/main.py` (FastAPI handler `summarize_tab`).
Python strings are modelled as `List Char` (sequences of Unicode scalar
values); Python/JSON numbers are modelled as exact rationals `ℚ`
(binary floating point is not modelled; `round(x, 2)` is modelled as
rounding to the nearest multiple of 1/100).
-/

namespace TabHarvester

/-- Convert a Lean string literal to the `List Char` representation used
throughout the model. -/
def strL (s : String) : List Char := s.toList

/-- The set of characters stripped by Python's `str.strip()` (Unicode
whitespace, per CPython's `str.isspace`). -/
def pyIsSpace (c : Char) : Bool :=
  c == ' ' || c == '\t' || c == '\n' || c == '\r' || c == '\x0b' || c == '\x0c' ||
  c == '\x1c' || c == '\x1d' || c == '\x1e' || c == '\x1f' || c == '\x85' ||
  c == '\xa0' || c == ' ' || c == ' ' || c == ' ' || c == ' ' ||
  c == ' ' || c == ' ' || c == ' ' || c == ' ' || c == ' ' ||
  c == ' ' || c == ' ' || c == ' ' || c == ' ' || c == ' ' ||
  c == ' ' || c == ' ' || c == '　'

/-- JSON insignificant whitespace (RFC 8259), as skipped by `json.loads`. -/
def jsonWsB (c : Char) : Bool :=
  c == ' ' || c == '\t' || c == '\n' || c == '\r'

/-- Left strip: drop leading characters satisfying `p`. -/
def lstrip (p : Char → Bool) (l : List Char) : List Char := l.dropWhile p

/-- Right strip: drop trailing characters satisfying `p`. -/
def rstrip (p : Char → Bool) (l : List Char) : List Char :=
  (l.reverse.dropWhile p).reverse

/-- Python `str.strip()`: strip whitespace from both ends. -/
def pyStrip (l : List Char) : List Char := rstrip pyIsSpace (lstrip pyIsSpace l)

/-- `begins pre s` is Python's `s.startswith(pre)`. -/
def begins : List Char → List Char → Bool
  | [], _ => true
  | _ :: _, [] => false
  | p :: ps, c :: cs => p == c && begins ps cs

/-- The triple-backtick fence marker. -/
def tick3 : List Char := ['`', '`', '`']

/-- Python `s.split("\n", 1)[1]`: everything after the first newline, or
`none` when there is no newline (in which case the indexing raises). -/
def splitAfterFirstNL : List Char → Option (List Char)
  | [] => none
  | c :: rest => if c = '\n' then some rest else splitAfterFirstNL rest

/-- Split a string at the *last* occurrence of `tick3`, returning the parts
before and after it; `none` when the marker does not occur.  Models
Python's `s.rsplit("```", 1)`. -/
def lastSplit : List Char → Option (List Char × List Char)
  | [] => none
  | c :: rest =>
    match lastSplit rest with
    | some (a, b) => some (c :: a, b)
    | none => if begins tick3 (c :: rest) then some ([], rest.drop 2) else none

/-- Python `s.rsplit("```", 1)[0]`: the part before the last `` ``` ``, or
the whole string when the marker is absent. -/
def beforeLastTick3 (s : List Char) : List Char :=
  match lastSplit s with
  | some (a, _) => a
  | none => s

/-- `true` iff the string contains an occurrence of the `` ``` `` marker. -/
def hasTick3 : List Char → Bool
  | [] => false
  | c :: rest => begins tick3 (c :: rest) || hasTick3 rest

/-- JSON values as produced by `json.loads` (numbers as exact rationals). -/
inductive Json where
  | null : Json
  | bool (b : Bool) : Json
  | num (q : ℚ) : Json
  | str (s : List Char) : Json
  | arr (elts : List Json) : Json
  | obj (kvs : List (List Char × Json)) : Json

/-- Value of a hexadecimal digit, if any. -/
def hexVal (c : Char) : Option Nat :=
  if '0' ≤ c && c ≤ '9' then some (c.toNat - 48)
  else if 'a' ≤ c && c ≤ 'f' then some (c.toNat - 87)
  else if 'A' ≤ c && c ≤ 'F' then some (c.toNat - 70)
  else none

/-- Combine four hex digits into a code point. -/
def hex4 (a b c d : Char) : Option Nat :=
  match hexVal a, hexVal b, hexVal c, hexVal d with
  | some x, some y, some z, some w => some (((x * 16 + y) * 16 + z) * 16 + w)
  | _, _, _, _ => none

/-- Parse the body of a JSON string after the opening quote, decoding
escape sequences; returns the decoded characters and the rest of the
input.  Surrogate pairs in `\uXXXX` escapes are combined; lone
surrogates (which CPython would keep as unpaired code units) are not
representable in `Char` and are rejected. -/
def parseStringRest : List Char → Except Unit (List Char × List Char)
  | [] => .error ()
  | '"' :: r => .ok ([], r)
  | '\\' :: 'u' :: a :: b :: c :: d :: r6 =>
    match hex4 a b c d with
    | none => .error ()
    | some n =>
      if 0xD800 ≤ n && n < 0xDC00 then
        match r6 with
        | '\\' :: 'u' :: a2 :: b2 :: c2 :: d2 :: r12 =>
          match hex4 a2 b2 c2 d2 with
          | none => .error ()
          | some m =>
            if 0xDC00 ≤ m && m < 0xE000 then
              (parseStringRest r12).map
                (fun p => (Char.ofNat (0x10000 + (n - 0xD800) * 0x400 + (m - 0xDC00)) :: p.1, p.2))
            else .error ()
        | _ => .error ()
      else if 0xDC00 ≤ n && n < 0xE000 then .error ()
      else (parseStringRest r6).map (fun p => (Char.ofNat n :: p.1, p.2))
  | '\\' :: e :: r2 =>
    let cont (ch : Char) : Except Unit (List Char × List Char) :=
      (parseStringRest r2).map (fun p => (ch :: p.1, p.2))
    if e = '"' then cont '"'
    else if e = '\\' then cont '\\'
    else if e = '/' then cont '/'
    else if e = 'b' then cont '\x08'
    else if e = 'f' then cont '\x0c'
    else if e = 'n' then cont '\n'
    else if e = 'r' then cont '\r'
    else if e = 't' then cont '\t'
    else .error ()
  | c :: r =>
    -- strict mode: unescaped control characters are rejected
    if c.toNat < 0x20 then .error ()
    else (parseStringRest r).map (fun p => (c :: p.1, p.2))

/-- Numeric value of a digit string. -/
def digitsToNat (ds : List Char) : Nat :=
  ds.foldl (fun a c => a * 10 + (c.toNat - 48)) 0

/-- Assemble a JSON number from sign, integer part, fraction digits and
exponent. -/
def mkNum (sgn : ℤ) (ip : Nat) (fd : List Char) (ex : ℤ) : ℚ :=
  (sgn : ℚ) * ((ip : ℚ) + (digitsToNat fd : ℚ) / (10 : ℚ) ^ fd.length) * (10 : ℚ) ^ ex

/-- Parse an optional exponent part and finish the number. -/
def parseExpPart (sgn : ℤ) (ip : Nat) (fd : List Char) (s : List Char) :
    Except Unit (ℚ × List Char) :=
  match s with
  | 'e' :: r => parseExpDigits sgn ip fd r
  | 'E' :: r => parseExpDigits sgn ip fd r
  | _ => .ok (mkNum sgn ip fd 0, s)
where
  parseExpDigits (sgn : ℤ) (ip : Nat) (fd : List Char) (r : List Char) :
      Except Unit (ℚ × List Char) :=
    let (esgn, r1) : ℤ × List Char :=
      match r with
      | '+' :: t => (1, t)
      | '-' :: t => (-1, t)
      | _ => (1, r)
    let ds := r1.takeWhile Char.isDigit
    if ds.isEmpty then .error ()
    else .ok (mkNum sgn ip fd (esgn * (digitsToNat ds : ℤ)), r1.dropWhile Char.isDigit)

/-- Parse an optional fraction part, then the exponent. -/
def parseFracPart (sgn : ℤ) (ip : Nat) (s : List Char) :
    Except Unit (ℚ × List Char) :=
  match s with
  | '.' :: r =>
    let fd := r.takeWhile Char.isDigit
    if fd.isEmpty then .error ()
    else parseExpPart sgn ip fd (r.dropWhile Char.isDigit)
  | _ => parseExpPart sgn ip [] s

/-- Parse a JSON number (RFC 8259 grammar; leading zeros not allowed).
The non-standard `NaN`/`Infinity` literals accepted by `json.loads` are
not modelled (no floating point in the model). -/
def parseNumCore (s : List Char) : Except Unit (ℚ × List Char) :=
  let (sgn, s1) : ℤ × List Char :=
    match s with
    | '-' :: r => (-1, r)
    | _ => (1, s)
  match s1 with
  | '0' :: r1 => parseFracPart sgn 0 r1
  | c :: _ =>
    if c.isDigit then
      parseFracPart sgn (digitsToNat (s1.takeWhile Char.isDigit)) (s1.dropWhile Char.isDigit)
    else .error ()
  | [] => .error ()

/-- Parse a JSON number into a `Json` value. -/
def parseNumber (s : List Char) : Except Unit (Json × List Char) :=
  (parseNumCore s).map (fun p => (Json.num p.1, p.2))

mutual

/-- Parse a JSON value (after skipping insignificant whitespace), as
`json.loads` does; fuel bounds the recursion depth. -/
def parseValue : Nat → List Char → Except Unit (Json × List Char)
  | 0, _ => .error ()
  | f + 1, s =>
    match s.dropWhile jsonWsB with
    | [] => .error ()
    | c :: r =>
      if c = '{' then (parseObjCore f r).map (fun p => (Json.obj p.1, p.2))
      else if c = '[' then (parseArrCore f r).map (fun p => (Json.arr p.1, p.2))
      else if c = '"' then (parseStringRest r).map (fun p => (Json.str p.1, p.2))
      else if begins (strL "true") (c :: r) then .ok (Json.bool true, (c :: r).drop 4)
      else if begins (strL "false") (c :: r) then .ok (Json.bool false, (c :: r).drop 5)
      else if begins (strL "null") (c :: r) then .ok (Json.null, (c :: r).drop 4)
      else parseNumber (c :: r)

/-- Parse an object body after the opening brace. -/
def parseObjCore : Nat → List Char → Except Unit (List (List Char × Json) × List Char)
  | 0, _ => .error ()
  | f + 1, s =>
    match s.dropWhile jsonWsB with
    | '}' :: r => .ok ([], r)
    | other => parseMembers f other

/-- Parse one or more `"key": value` members of an object. -/
def parseMembers : Nat → List Char → Except Unit (List (List Char × Json) × List Char)
  | 0, _ => .error ()
  | f + 1, s =>
    match s.dropWhile jsonWsB with
    | '"' :: r =>
      match parseStringRest r with
      | .error _ => .error ()
      | .ok (k, r2) =>
        match r2.dropWhile jsonWsB with
        | ':' :: r3 =>
          match parseValue f r3 with
          | .error _ => .error ()
          | .ok (v, r4) =>
            match r4.dropWhile jsonWsB with
            | ',' :: r5 => (parseMembers f r5).map (fun p => ((k, v) :: p.1, p.2))
            | '}' :: r5 => .ok ([(k, v)], r5)
            | _ => .error ()
        | _ => .error ()
    | _ => .error ()

/-- Parse an array body after the opening bracket. -/
def parseArrCore : Nat → List Char → Except Unit (List Json × List Char)
  | 0, _ => .error ()
  | f + 1, s =>
    match s.dropWhile jsonWsB with
    | ']' :: r => .ok ([], r)
    | other => parseElems f other

/-- Parse one or more comma-separated array elements. -/
def parseElems : Nat → List Char → Except Unit (List Json × List Char)
  | 0, _ => .error ()
  | f + 1, s =>
    match parseValue f s with
    | .error _ => .error ()
    | .ok (v, r) =>
      match r.dropWhile jsonWsB with
      | ',' :: r2 => (parseElems f r2).map (fun p => (v :: p.1, p.2))
      | ']' :: r2 => .ok ([v], r2)
      | _ => .error ()

end

/-- `json.loads`: parse a complete JSON document, allowing surrounding
whitespace and nothing else. -/
def loads (s : List Char) : Except Unit Json :=
  match parseValue (4 * s.length + 8) s with
  | .ok (v, r) => if (r.dropWhile jsonWsB).isEmpty then .ok v else .error ()
  | .error _ => .error ()

/-- Python `dict.get(k, d)` on the dict built by `json.loads` (on
duplicate keys the last binding wins). -/
def getD (kvs : List (List Char × Json)) (k : List Char) (d : Json) : Json :=
  match kvs.reverse.find? (fun p => p.1 == k) with
  | some p => p.2
  | none => d

/-- Python truthiness of a JSON value (`not x` negates this). -/
def pyTruthy : Json → Bool
  | .null => false
  | .bool b => b
  | .num q => !(q = 0 : Bool)
  | .str s => !s.isEmpty
  | .arr es => !es.isEmpty
  | .obj kvs => !kvs.isEmpty

/-- `isinstance(x, list)` for a JSON value. -/
def isArrB : Json → Bool
  | .arr _ => true
  | _ => false

/-- Whether a JSON value is an object (a Python `dict`). -/
def isObjB : Json → Bool
  | .obj _ => true
  | _ => false

/-- Whether a JSON value is a string. -/
def isStrB : Json → Bool
  | .str _ => true
  | _ => false

/-- Whether every element of a list of JSON values is a string. -/
def allStrB (es : List Json) : Bool :=
  es.all (fun e => match e with | .str _ => true | _ => false)

/-- Whether a JSON value is a list whose elements are all strings —
what pydantic's `list[str]` accepts from the parsed values. -/
def isArrStrB : Json → Bool
  | .arr es => allStrB es
  | _ => false

/-- Python type name of a JSON value, for `AttributeError` messages
(`json.loads` yields `int` for whole numbers, `float` otherwise). -/
def pyTypeName : Json → List Char
  | .null => strL "NoneType"
  | .bool _ => strL "bool"
  | .num q => if q.den = 1 then strL "int" else strL "float"
  | .str _ => strL "str"
  | .arr _ => strL "list"
  | .obj _ => strL "dict"

/-! ## The request pipeline (`summarize_tab`, `src/main.py` lines 80–165) -/

/-- The validated request body (`SummarizeRequest` pydantic model). -/
structure SummarizeRequest where
  url : List Char
  title : List Char
  content : List Char
deriving DecidableEq

/-- One row of the Supabase `archived_tabs` table, as inserted by the
handler.  `summary` and `tags` hold the values extracted from the model
response (which the handler does not further type-check); `archived_at`
is the timestamp string produced at persistence time. -/
structure ArchivedTab where
  url : List Char
  title : List Char
  summary : Json
  tags : Json
  archived_at : List Char

/-- The singleton `system_metrics` row. -/
structure MetricsRow where
  id : ℤ
  total_tabs_closed : ℤ
  total_ram_saved_mb : ℚ
  total_power_saved_watts : ℚ
deriving DecidableEq

/-- The external Supabase store: the `archived_tabs` table and the
(at most one) `system_metrics` row visible to this request. -/
structure Store where
  archived : List ArchivedTab
  metrics : Option MetricsRow

/-- Outcomes of the external collaborator calls made during one request:
whether the model call returns text or raises, whether the insert,
metrics select and metrics update succeed or raise, and the timestamp.
The generate result is a function of the prompt actually sent. -/
structure Env where
  genResult : List Char → Except (List Char) (List Char)
  insertResult : Except (List Char) Unit
  selectResult : Except (List Char) Unit
  updateResult : Except (List Char) Unit
  now : List Char

/-- The handler's outcome: a 200 response built from
`SummarizeResponse(status="ok", summary=..., tags=...)`, an
`HTTPException(status_code, detail)`, or an unhandled exception
escaping the handler (e.g. a pydantic `ValidationError` raised while
constructing the response model), which FastAPI's error middleware
turns into a plain 500 Internal Server Error. -/
inductive Outcome where
  | ok (status : List Char) (summary : Json) (tags : Json)
  | httpError (code : Nat) (detail : List Char)
  | serverError

/-- Line 165, `SummarizeResponse(status="ok", summary=summary,
tags=tags)`: pydantic validates `summary : str` and `tags : list[str]`
at construction.  A non-string summary or a tags list with a non-string
element raises `ValidationError`; the exception is not caught by the
handler, so the endpoint answers with the framework's plain 500 rather
than a 200. -/
def mkResponse (summary tags : Json) : Outcome :=
  if isStrB summary && isArrStrB tags then .ok (strL "ok") summary tags
  else .serverError

/-- Python `round(x, 2)`: round to the nearest multiple of 1/100
(CPython's float tie-breaking is not modelled; ties are not hit by the
fixed 0.18 delta on representable inputs). -/
def round2 (q : ℚ) : ℚ := (round (q * 100) : ℤ) / 100

/-- Lines 88–92: build the user prompt, content capped at 30,000
characters (`payload.content[:30000]`). -/
def buildPrompt (p : SummarizeRequest) : List Char :=
  strL "Title: " ++ p.title ++ strL "\n" ++
  strL "URL: " ++ p.url ++ strL "\n\n" ++
  strL "Page content:\n" ++ p.content.take 30000

/-- Lines 99–102: if the stripped text starts with `` ``` ``, drop the
first line (`split("\n", 1)[1]`; an `IndexError` if there is no newline,
which the broad `except` turns into a 502) and keep what precedes the
last `` ``` `` (`rsplit("```", 1)[0].strip()`). -/
def fenceStage (raw0 : List Char) : Except (List Char) (List Char) :=
  if begins tick3 raw0 then
    match splitAfterFirstNL raw0 with
    | none => .error (strL "Vertex AI error: list index out of range")
    | some rest => .ok (pyStrip (beforeLastTick3 rest))
  else .ok raw0

/-- Lines 104–109: `result.get("summary", "")`, `result.get("tags", [])`
and the `if not summary or not isinstance(tags, list)` structure check
(note: tags *elements* are not type-checked).  A non-dict JSON value
makes `result.get` raise `AttributeError`, caught by the broad
`except`. -/
def extractFields (j : Json) : Except (List Char) (Json × Json) :=
  match j with
  | .obj kvs =>
    let summary := getD kvs (strL "summary") (.str [])
    let tags := getD kvs (strL "tags") (.arr [])
    if !pyTruthy summary || !isArrB tags then
      .error (strL "Vertex AI error: Model returned unexpected structure")
    else .ok (summary, tags)
  | other =>
    .error (strL "Vertex AI error: '" ++ pyTypeName other ++
      strL "' object has no attribute 'get'")

/-- Lines 96–120: strip the raw model text, remove an optional markdown
fence, `json.loads` it, and extract/validate the fields; each failure is
mapped to the detail string of the 502 `HTTPException` raised by the
corresponding `except` branch. -/
def parseStage (text : List Char) : Except (List Char) (Json × Json) :=
  let raw0 := pyStrip text
  match fenceStage raw0 with
  | .error d => .error d
  | .ok raw1 =>
    match loads raw1 with
    | .error _ => .error (strL "Gemini returned non-JSON response: " ++ raw1.take 200)
    | .ok j => extractFields j

/-- The update dict of lines 151–157 applied to a row `r`: the three
counter fields are set to `cur["total_tabs_closed"] + 1`,
`cur["total_ram_saved_mb"] + 400` and
`round(cur["total_power_saved_watts"] + 0.18, 2)` where `cur` is the row
read earlier; the update dict has exactly these three keys, so every
other field of `r` (here `id`) is untouched. -/
def updFields (cur : MetricsRow) (r : MetricsRow) : MetricsRow :=
  { r with
    total_tabs_closed := cur.total_tabs_closed + 1,
    total_ram_saved_mb := cur.total_ram_saved_mb + 400,
    total_power_saved_watts := round2 (cur.total_power_saved_watts + 9 / 50) }

/-- The net per-event increment when the row written is the row read. -/
def incRow (row : MetricsRow) : MetricsRow := updFields row row

/-- Lines 138–161: read the single `system_metrics` row
(`select("*").limit(1).single()`, raising when the select fails or no
row exists) and write back the incremented counters
(`update(...).eq("id", current["id"])`).  Any exception is swallowed
(non-fatal). -/
def metricsStep (env : Env) (st : Store) : Store :=
  match env.selectResult, st.metrics with
  | .ok _, some row =>
    match env.updateResult with
    | .ok _ =>
      { st with metrics := st.metrics.map (fun r => if r.id = row.id then updFields row r else r) }
    | .error _ => st
  | _, _ => st

/-- Dispatch on the model-call result: the rest of the handler after the
prompt has been sent (lines 94–165). -/
def genDispatch (env : Env) (payload : SummarizeRequest) (st : Store) :
    Except (List Char) (List Char) → Outcome × Store
  | .error e => (.httpError 502 (strL "Vertex AI error: " ++ e), st)
  | .ok text =>
    match parseStage text with
    | .error d => (.httpError 502 d, st)
    | .ok (summary, tags) =>
      match env.insertResult with
      | .error e => (.httpError 500 (strL "Supabase insert error: " ++ e), st)
      | .ok _ =>
        let st1 : Store :=
          { st with archived := st.archived ++
              [⟨payload.url, payload.title, summary, tags, env.now⟩] }
        let st2 := metricsStep env st1
        (mkResponse summary tags, st2)

/-- The `summarize_tab` handler body: build the prompt, call the model,
then parse / persist / update metrics / respond. -/
def summarize_tab (env : Env) (payload : SummarizeRequest) (st : Store) :
    Outcome × Store :=
  genDispatch env payload st (env.genResult (buildPrompt payload))

/-- Pydantic validation of the request body against `SummarizeRequest`
(lines 66–69): the body must be a JSON object whose `url`, `title` and
`content` fields are present and are strings (pydantic v2 lax mode does
not coerce other JSON types to `str`); no other constraint — in
particular no non-emptiness check — is declared. -/
def validateReq (body : Json) : Except (List Char) SummarizeRequest :=
  match body with
  | .obj kvs =>
    match getD kvs (strL "url") .null, getD kvs (strL "title") .null,
        getD kvs (strL "content") .null with
    | .str u, .str t, .str c => .ok ⟨u, t, c⟩
    | _, _, _ => .error (strL "Input should be a valid string")
  | _ => .error (strL "Input should be a valid dictionary or object")

/-- `POST /api/summarize`: FastAPI validates the body against the
request model before the handler runs (validation failures are rejected
by the framework with its default 422 status and reach no handler code),
then runs `summarize_tab`. -/
def api_summarize (env : Env) (body : Json) (st : Store) : Outcome × Store :=
  match validateReq body with
  | .error d => (.httpError 422 d, st)
  | .ok payload => summarize_tab env payload st

/-! ## Interleaved metrics updates (lines 142–157 under concurrency)

Each request's metrics step is a read (`select ... single`) followed by
a write (`update ... eq`) computed from the value read.  Concurrent
requests interleave these two store round-trips arbitrarily. -/

/-- One store round-trip of request `i`'s metrics step. -/
inductive MEvent where
  | read (i : Nat)
  | write (i : Nat)
deriving DecidableEq

/-- State of the interleaved execution: the current `system_metrics` row
and each request's private snapshot from its read. -/
structure ConcState where
  row : MetricsRow
  snaps : List (Nat × MetricsRow)

/-- Effect of one event: a read stores the current row in the request's
snapshot; a write stores the incremented snapshot back into the row
(exactly the two statements of lines 142–157). -/
def mStep (s : ConcState) : MEvent → ConcState
  | .read i => { s with snaps := (i, s.row) :: s.snaps }
  | .write i =>
    match s.snaps.find? (fun p => p.1 == i) with
    | some p =>
      { s with row := if s.row.id = p.2.id then updFields p.2 s.row else s.row }
    | none => s

/-- Run a schedule of read/write events from an initial row. -/
def runSchedule (init : MetricsRow) (sch : List MEvent) : MetricsRow :=
  (sch.foldl mStep ⟨init, []⟩).row

/-- A schedule is a valid interleaving of `n` metrics steps: each request
`i < n` performs exactly one read and one write, the read first, and
nothing else happens. -/
def isValidSchedule (n : Nat) (sch : List MEvent) : Bool :=
  sch.length = 2 * n &&
  (List.range n).all (fun i =>
    sch.count (.read i) = 1 && sch.count (.write i) = 1 &&
    sch.indexOf (.read i) < sch.indexOf (.write i))

/-- A fenced model response: a leading fence line (triple backticks plus
a language tag), a body, and a trailing fence line. -/
def fenceWrap (lang B : List Char) : List Char :=
  tick3 ++ lang ++ '\n' :: (B ++ '\n' :: tick3)

/-! ## Concrete instances used in closed statements -/

/-- An initial `system_metrics` row. -/
def row0 : MetricsRow := ⟨1, 0, 0, 0⟩

/-- Two concurrent metrics steps where both reads happen before either
write. -/
def lostSchedule : List MEvent := [.read 0, .read 1, .write 0, .write 1]

/-- Two metrics steps executed back to back. -/
def serialSchedule : List MEvent := [.read 0, .write 0, .read 1, .write 1]

/-- The model response text of the spec's worked example. -/
def exModelText : List Char :=
  strL "```json\n\x7b\"summary\":\"s\",\"tags\":[\"x\",\"y\",\"z\"]\x7d\n```"

/-- The request body of the spec's worked example. -/
def ex8Body : Json :=
  Json.obj [(strL "url", Json.str (strL "http://a")),
    (strL "title", Json.str (strL "A")),
    (strL "content", Json.str (strL "hello"))]

/-- The validated payload of the spec's worked example. -/
def ex8Payload : SummarizeRequest := ⟨strL "http://a", strL "A", strL "hello"⟩

/-- An environment where every collaborator call succeeds and the model
returns the worked example's fenced response. -/
def ex8Env : Env :=
  { genResult := fun _ => .ok exModelText
    insertResult := .ok ()
    selectResult := .ok ()
    updateResult := .ok ()
    now := strL "2026-02-19T00:00:00+00:00" }

/-- A store holding no archived tabs and the initial metrics row. -/
def store0 : Store := ⟨[], some row0⟩

/-- A raw model response whose `tags` list contains non-string
elements. -/
def numTagsText : List Char := strL "\x7b\"summary\":\"s\",\"tags\":[true,null]\x7d"

/-- An environment identical to `ex8Env` except that the model returns
`numTagsText`. -/
def numTagsEnv : Env := { ex8Env with genResult := fun _ => .ok numTagsText }

/-- An environment identical to `ex8Env` except that the metrics update
raises. -/
def updFailEnv : Env := { ex8Env with updateResult := .error (strL "update timeout") }

/-- An environment where the model returns `numTagsText` and the
metrics update raises. -/
def numTagsUpdFailEnv : Env :=
  { numTagsEnv with updateResult := .error (strL "update timeout") }

/-- An environment identical to `ex8Env` except that the model call
raises. -/
def genFailEnv : Env := { ex8Env with genResult := fun _ => .error (strL "DeadlineExceeded") }

/-- An environment identical to `ex8Env` except that the archive insert
raises. -/
def insFailEnv : Env := { ex8Env with insertResult := .error (strL "connection reset") }

/-- A request body whose `url` is the empty string. -/
def emptyUrlBody : Json :=
  Json.obj [(strL "url", Json.str []),
    (strL "title", Json.str (strL "t")),
    (strL "content", Json.str (strL "c"))]

/-- Request-body fields where `url` is a JSON number, not a string. -/
def numUrlKvs : List (List Char × Json) :=
  [(strL "url", Json.num 3),
   (strL "title", Json.str (strL "t")),
   (strL "content", Json.str (strL "c"))]

/-- A fenced response whose JSON body contains a literal `` ``` ``
inside the `summary` string. -/
def innerTickText : List Char :=
  strL "```json\n\x7b\"summary\":\"a```b\",\"tags\":[]\x7d\n```"

/-- The body of `innerTickText` between the fence lines. -/
def innerTickBody : List Char := strL "\x7b\"summary\":\"a```b\",\"tags\":[]\x7d"

/-! ## Helper lemmas -/

theorem exceptMap_ok {α β γ : Type} {f : α → β} {e : Except γ α} {y : β}
    (h : e.map f = .ok y) : ∃ x, e = .ok x ∧ y = f x := by
  cases e with
  | error b => simp [Except.map] at h
  | ok a => exact ⟨a, rfl, by simpa [Except.map] using h.symm⟩

theorem dropWhile_head_not {α : Type} {p : α → Bool} {l t : List α} {c : α}
    (h : l.dropWhile p = c :: t) : p c = false := by
  induction l with
  | nil => simp [List.dropWhile] at h
  | cons a l ih =>
    rw [List.dropWhile_cons] at h
    by_cases pa : p a = true
    · exact ih (by simpa [pa] using h)
    · simp [pa] at h
      simpa [← h.1] using pa

theorem dropWhile_append_not {α : Type} {p : α → Bool} {c : α}
    (h : p c = false) (xs : List α) :
    List.dropWhile p (xs ++ [c]) = List.dropWhile p xs ++ [c] := by
  induction xs with
  | nil => simp [List.dropWhile_cons, h]
  | cons a xs ih =>
    by_cases pa : p a = true <;> simp [List.dropWhile_cons, pa, ih]

theorem rstrip_cons_not {p : Char → Bool} {c : Char} (h : p c = false)
    (l : List Char) : rstrip p (c :: l) = c :: rstrip p l := by
  unfold rstrip
  rw [List.reverse_cons, dropWhile_append_not h, List.reverse_append]
  simp

theorem rstrip_append_not {p : Char → Bool} {c : Char} (h : p c = false)
    (l : List Char) : rstrip p (l ++ [c]) = l ++ [c] := by
  unfold rstrip
  rw [List.reverse_append]
  simp [List.dropWhile_cons, h]

theorem rstrip_append_ws {p : Char → Bool} {c : Char} (h : p c = true)
    (l : List Char) : rstrip p (l ++ [c]) = rstrip p l := by
  unfold rstrip
  rw [List.reverse_append]
  simp [List.dropWhile_cons, h]

theorem pyStrip_append_nl (B : List Char) : pyStrip (B ++ ['\n']) = pyStrip B := by
  unfold pyStrip lstrip
  rw [List.dropWhile_append]
  by_cases he : (List.dropWhile pyIsSpace B).isEmpty = true
  · rw [if_pos he]
    rw [List.isEmpty_iff] at he
    rw [he]
    simp [List.dropWhile_cons, pyIsSpace, rstrip]
  · rw [if_neg he]
    exact rstrip_append_ws (by rfl) _

theorem rstrip_eq_cons {p : Char → Bool} {d t : List Char} {c : Char}
    (h : rstrip p d = c :: t) : ∃ t2, d = c :: t2 := by
  cases d with
  | nil => simp [rstrip] at h
  | cons a d' =>
    by_cases pa : p a = true
    · unfold rstrip at h
      rw [List.reverse_cons, List.dropWhile_append] at h
      by_cases he : (List.dropWhile p d'.reverse).isEmpty = true
      · rw [if_pos he] at h
        simp [List.dropWhile_cons, pa] at h
      · rw [if_neg he, List.reverse_append] at h
        simp at h
        exact ⟨d', by rw [h.1]⟩
    · rw [rstrip_cons_not (by simpa using pa)] at h
      simp at h
      exact ⟨d', by rw [h.1]⟩

theorem pyStrip_head_not {l t : List Char} {c : Char}
    (h : pyStrip l = c :: t) : pyIsSpace c = false := by
  unfold pyStrip at h
  obtain ⟨t2, h2⟩ := rstrip_eq_cons h
  exact dropWhile_head_not h2

theorem lastSplit_append_close (B : List Char) :
    lastSplit (B ++ '\n' :: tick3) = some (B ++ ['\n'], []) := by
  induction B with
  | nil => rfl
  | cons c B ih => simp [lastSplit, ih]

theorem splitNL_append {xs : List Char} (h : '\n' ∉ xs) (ys : List Char) :
    splitAfterFirstNL (xs ++ '\n' :: ys) = some ys := by
  induction xs with
  | nil => simp [splitAfterFirstNL]
  | cons a xs ih =>
    simp at h
    have ha : ¬a = '\n' := fun hh => h.1 hh.symm
    simp [splitAfterFirstNL, ha, ih h.2]

theorem jsonWs_py {c : Char} (h : jsonWsB c = true) : pyIsSpace c = true := by
  unfold jsonWsB at h
  simp [beq_iff_eq] at h
  rcases h with ((h | h) | h) | h <;> subst h <;> rfl

theorem metricsStep_archived (env : Env) (st : Store) :
    (metricsStep env st).archived = st.archived := by
  unfold metricsStep
  rcases env.selectResult with e | u <;> rcases hm : st.metrics with _ | row <;>
    simp [hm]
  rcases env.updateResult with e | u <;> simp

theorem round2_ge (q : ℚ) : q - 1 / 200 ≤ round2 q := by
  have h := (abs_le.mp (abs_sub_round (q * 100))).2
  unfold round2
  rw [le_div_iff₀ (by norm_num : (0:ℚ) < 100)]
  linarith

/-! ## Claim theorems -/

/-- C1: the claim says that under N concurrent successful archive
operations no increment is lost regardless of how the read-then-write
sequences interleave.  The code's metrics step is a non-atomic
read-then-write; with two operations whose reads both precede the
writes (a valid interleaving), the final counters advance by only one
event's deltas (`total_tabs_closed` ends at 1, not 2), while the
serialized schedule advances them by two — the increment of one request
is lost. -/
theorem metrics_interleaving_loses_update :
    isValidSchedule 2 lostSchedule = true ∧
    runSchedule row0 serialSchedule = ⟨1, 2, 800, 9 / 25⟩ ∧
    runSchedule row0 lostSchedule = ⟨1, 1, 400, 9 / 50⟩ := by
  refine ⟨by decide, ?_, ?_⟩ <;>
  · simp [runSchedule, serialSchedule, lostSchedule, row0, mStep, updFields, round2,
      List.find?]
    norm_num

/-- C2: in a sequential successful metrics step that read the row
`(t, r, p)`, the update writes exactly `t + 1`, `r + 400` and
`round(p + 0.18, 2)` (rounding after the addition), all three counters
are non-decreasing, the row's other field (`id`) is untouched, and the
archive table is untouched. -/
theorem metrics_update_formula (env : Env) (st : Store) (row : MetricsRow)
    (hm : st.metrics = some row) (hs : env.selectResult = .ok ())
    (hu : env.updateResult = .ok ()) :
    metricsStep env st = { st with metrics := some ⟨row.id,
      row.total_tabs_closed + 1, row.total_ram_saved_mb + 400,
      round2 (row.total_power_saved_watts + 9 / 50)⟩ } ∧
    row.total_tabs_closed ≤ row.total_tabs_closed + 1 ∧
    row.total_ram_saved_mb ≤ row.total_ram_saved_mb + 400 ∧
    row.total_power_saved_watts ≤ round2 (row.total_power_saved_watts + 9 / 50) ∧
    (metricsStep env st).archived = st.archived := by
  refine ⟨?_, by linarith, by linarith, ?_, metricsStep_archived env st⟩
  · unfold metricsStep
    rw [hs, hm, hu]
    simp [hm, updFields]
  · have h := round2_ge (row.total_power_saved_watts + 9 / 50)
    linarith

/-- Witness for C2 at a concrete environment, store and row. -/
theorem metrics_update_formula_witness :
    metricsStep ex8Env store0 = ⟨[], some ⟨1, 1, 400, 9 / 50⟩⟩ := by
  have h := (metrics_update_formula ex8Env store0 row0 rfl rfl rfl).1
  rw [h]
  simp [store0, row0, round2]
  norm_num

/-- C3 counterexample: a request whose model call, parse stage and
archive insert all succeed (the parse stage admits the non-string tags
`[true, null]`) and whose metrics update raises does *not* return 200
`ok`: constructing `SummarizeResponse` at line 165 raises a pydantic
`ValidationError` (`tags : list[str]` rejects `True`/`None`), so the
endpoint answers with the framework's 500 — after the archive record
was already inserted. -/
theorem nonstring_tags_break_200_cex :
    parseStage numTagsText =
      .ok (Json.str (strL "s"), Json.arr [Json.bool true, Json.null]) ∧
    numTagsUpdFailEnv.insertResult = .ok () ∧
    numTagsUpdFailEnv.updateResult = .error (strL "update timeout") ∧
    (summarize_tab numTagsUpdFailEnv ex8Payload store0).1 = .serverError ∧
    (summarize_tab numTagsUpdFailEnv ex8Payload store0).2.archived.length = 1 :=
  ⟨rfl, rfl, rfl, rfl, rfl⟩

/-- C3 amended: when the model call, the parse stage and the insert
succeed *and* the parsed summary is a string and every tags element is
a string (so the response model validates), a raising metrics read or
update (or a missing metrics row) still yields a 200 response with
status `ok` and the parsed summary and tags, and the archive record
stays in the store; the metrics failure is only logged.  (When the
parsed fields fail response-model validation the endpoint answers 500
whether or not the metrics step fails, so a metrics failure never
changes the outcome either way.) -/
theorem metrics_failure_nonfatal (env : Env) (payload : SummarizeRequest)
    (st : Store) (text s : List Char) (ts : List Json)
    (hg : env.genResult (buildPrompt payload) = .ok text)
    (hp : parseStage text = .ok (Json.str s, Json.arr ts))
    (hts : allStrB ts = true)
    (hi : env.insertResult = .ok ())
    (_hfail : (∃ e, env.selectResult = .error e) ∨
      (∃ e, env.updateResult = .error e) ∨ st.metrics = none) :
    (summarize_tab env payload st).1 = .ok (strL "ok") (Json.str s) (Json.arr ts) ∧
    (summarize_tab env payload st).2.archived =
      st.archived ++ [⟨payload.url, payload.title, Json.str s, Json.arr ts, env.now⟩] := by
  constructor
  · simp [summarize_tab, genDispatch, hg, hp, hi, mkResponse, isStrB, isArrStrB, hts]
  · simp [summarize_tab, genDispatch, hg, hp, hi, metricsStep_archived]

/-- Witness for C3: with a failing metrics update and well-typed parsed
fields the endpoint still answers `ok` with them. -/
theorem metrics_failure_nonfatal_witness :
    (summarize_tab updFailEnv ex8Payload store0).1 =
      .ok (strL "ok") (Json.str (strL "s"))
        (Json.arr [Json.str (strL "x"), Json.str (strL "y"), Json.str (strL "z")]) :=
  (metrics_failure_nonfatal updFailEnv ex8Payload store0 exModelText _ _ rfl rfl rfl
    rfl (.inr (.inl ⟨strL "update timeout", rfl⟩))).1

/-- C4: if the model call raises, or its response fails the parse stage,
the handler answers 502 and the store is exactly unchanged — no archive
record is inserted and the metrics row is neither read nor written. -/
theorem model_failure_no_side_effects (env : Env) (payload : SummarizeRequest)
    (st : Store)
    (h : (∃ e, env.genResult (buildPrompt payload) = .error e) ∨
      (∃ text d, env.genResult (buildPrompt payload) = .ok text ∧
        parseStage text = .error d)) :
    ∃ d, summarize_tab env payload st = (.httpError 502 d, st) := by
  rcases h with ⟨e, he⟩ | ⟨text, d, hg, hp⟩
  · exact ⟨strL "Vertex AI error: " ++ e, by simp [summarize_tab, genDispatch, he]⟩
  · exact ⟨d, by simp [summarize_tab, genDispatch, hg, hp]⟩

/-- Witness for C4 with a raising model call. -/
theorem model_failure_no_side_effects_witness :
    ∃ d, summarize_tab genFailEnv ex8Payload store0 = (.httpError 502 d, store0) :=
  model_failure_no_side_effects genFailEnv ex8Payload store0
    (.inl ⟨strL "DeadlineExceeded", rfl⟩)

/-- C5: if the archive insert raises, the handler answers 500 with a
persistence-error detail (not the 502 of a model error) and the store —
in particular the metrics row — is exactly unchanged. -/
theorem insert_failure_500_no_metrics (env : Env) (payload : SummarizeRequest)
    (st : Store) (text : List Char) (s t : Json) (e : List Char)
    (hg : env.genResult (buildPrompt payload) = .ok text)
    (hp : parseStage text = .ok (s, t))
    (hi : env.insertResult = .error e) :
    summarize_tab env payload st =
      (.httpError 500 (strL "Supabase insert error: " ++ e), st) ∧ (500 : Nat) ≠ 502 := by
  exact ⟨by simp [summarize_tab, genDispatch, hg, hp, hi], by decide⟩

/-- Witness for C5 with a raising insert. -/
theorem insert_failure_500_no_metrics_witness :
    summarize_tab insFailEnv ex8Payload store0 =
      (.httpError 500 (strL "Supabase insert error: " ++ strL "connection reset"),
        store0) :=
  (insert_failure_500_no_metrics insFailEnv ex8Payload store0 exModelText _ _ _
    rfl rfl rfl).1

/-- C9: the prompt is the literal instruction string containing the
title, the URL, and the content truncated to its first 30,000 characters
(`content[:30000]`); content of length at most 30,000 is included
unmodified; and the handler passes exactly `buildPrompt payload` to the
model call, before anything else happens. -/
theorem prompt_contains_capped_content (p : SummarizeRequest) :
    buildPrompt p = strL "Title: " ++ p.title ++ strL "\n" ++ strL "URL: " ++ p.url ++
      strL "\n\n" ++ strL "Page content:\n" ++ p.content.take 30000 ∧
    (p.content.length ≤ 30000 →
      buildPrompt p = strL "Title: " ++ p.title ++ strL "\n" ++ strL "URL: " ++ p.url ++
        strL "\n\n" ++ strL "Page content:\n" ++ p.content) ∧
    (p.content.take 30000).length = min 30000 p.content.length ∧
    ∀ env st, summarize_tab env p st = genDispatch env p st (env.genResult (buildPrompt p)) := by
  refine ⟨rfl, fun h => ?_, List.length_take 30000 p.content, fun env st => rfl⟩
  unfold buildPrompt
  rw [List.take_of_length_le h]

/-- Witness for C9 at the worked example's payload (content below the
cap, hence unmodified). -/
theorem prompt_contains_capped_content_witness :
    buildPrompt ex8Payload = strL "Title: " ++ strL "A" ++ strL "\n" ++ strL "URL: " ++
      strL "http://a" ++ strL "\n\n" ++ strL "Page content:\n" ++ strL "hello" :=
  (prompt_contains_capped_content ex8Payload).2.1 (by decide)

/-! ## Fence-stripping helper lemmas -/

theorem begins_append {pre s : List Char} (h : begins pre s = true) :
    s = pre ++ s.drop pre.length := by
  induction pre generalizing s with
  | nil => simp
  | cons p ps ih =>
    cases s with
    | nil => simp [begins] at h
    | cons c cs =>
      simp only [begins, Bool.and_eq_true, beq_iff_eq] at h
      obtain ⟨rfl, h2⟩ := h
      simpa using congrArg (List.cons p) (ih h2)

theorem begins_self_append (pre t : List Char) : begins pre (pre ++ t) = true := by
  induction pre with
  | nil => rfl
  | cons p ps ih => simp [begins, ih]

theorem lastSplit_none {s : List Char} (h : lastSplit s = none) :
    hasTick3 s = false := by
  induction s with
  | nil => rfl
  | cons c rest ih =>
    simp only [lastSplit] at h
    rcases hr : lastSplit rest with _ | ab
    · rw [hr] at h
      split_ifs at h with hbg
      simp [hasTick3, hbg, ih hr]
    · rw [hr] at h
      simp at h

theorem hasTick3_drop {s : List Char} (h : hasTick3 s = false) (n : Nat) :
    hasTick3 (s.drop n) = false := by
  induction s generalizing n with
  | nil => simp [hasTick3]
  | cons c rest ih =>
    simp only [hasTick3, Bool.or_eq_false_iff] at h
    cases n with
    | zero => simp [hasTick3, h.1, h.2]
    | succ n => exact ih h.2 n

theorem hasTick3_append_mark (a b : List Char) : hasTick3 (a ++ tick3 ++ b) = true := by
  induction a with
  | nil =>
    simp [hasTick3, tick3]
    exact Or.inl (begins_self_append tick3 b)
  | cons c a ih =>
    simp only [List.append_assoc] at ih ⊢
    simp only [List.cons_append]
    simp [hasTick3, ih]

theorem lastSplit_spec {s a b : List Char} (h : lastSplit s = some (a, b)) :
    s = a ++ tick3 ++ b ∧ hasTick3 b = false := by
  induction s generalizing a b with
  | nil => simp [lastSplit] at h
  | cons c rest ih =>
    simp only [lastSplit] at h
    rcases hr : lastSplit rest with _ | ⟨a2, b2⟩
    · rw [hr] at h
      split_ifs at h with hbg
      · simp at h
        obtain ⟨rfl, rfl⟩ := h
        have hdec := begins_append hbg
        refine ⟨by simpa [tick3] using hdec, ?_⟩
        exact hasTick3_drop (lastSplit_none hr) 2
    · rw [hr] at h
      simp at h
      obtain ⟨rfl, rfl⟩ := h
      obtain ⟨hs, hb⟩ := ih hr
      refine ⟨?_, hb⟩
      rw [hs]
      simp

/-! ## C10 theorems -/

/-- C10 counterexample: with a closing fence present, a body containing
a literal `` ``` `` is *not* truncated at that internal marker — the cut
happens at the closing fence (the last occurrence), the internal marker
survives intact into the kept payload, and the payload still parses as
JSON with the marker inside the summary string. -/
theorem internal_marker_not_truncated_cex :
    fenceStage (pyStrip innerTickText) = .ok innerTickBody ∧
    hasTick3 innerTickBody = true ∧
    parseStage innerTickText = .ok (Json.str (strL "a```b"), Json.arr []) ∧
    hasTick3 (strL "a```b") = true :=
  ⟨rfl, rfl, rfl, rfl⟩

/-- C10 amended: for a text starting with a fence marker and containing
a newline, the parser removes the first line and then keeps exactly what
precedes the *last* `` ``` `` occurrence of the remainder (stripped).
Consequently an internal marker truncates the payload only when no
closing fence follows it (it is then the last occurrence); when a
trailing fence is present the cut happens there and internal markers
survive; and a remainder with no marker at all is kept whole. -/
theorem fence_strip_last_marker :
    (∀ s a b : List Char, lastSplit s = some (a, b) →
      s = a ++ tick3 ++ b ∧ hasTick3 b = false) ∧
    (∀ s : List Char, hasTick3 s = false → beforeLastTick3 s = s) ∧
    (∀ raw0 rest : List Char, begins tick3 raw0 = true →
      splitAfterFirstNL raw0 = some rest →
      fenceStage raw0 = .ok (pyStrip (beforeLastTick3 rest))) ∧
    (∀ B : List Char, beforeLastTick3 (B ++ '\n' :: tick3) = B ++ ['\n']) := by
  refine ⟨fun s a b h => lastSplit_spec h, fun s h => ?_, fun raw0 rest hbg hnl => ?_,
    fun B => ?_⟩
  · unfold beforeLastTick3
    rcases hl : lastSplit s with _ | ⟨a, b⟩
    · rfl
    · obtain ⟨hs, -⟩ := lastSplit_spec hl
      rw [hs, hasTick3_append_mark] at h
      exact absurd h (by simp)
  · simp [fenceStage, hbg, hnl]
  · unfold beforeLastTick3
    rw [lastSplit_append_close]

/-- Witness for the amended C10 at concrete inputs. -/
theorem fence_strip_last_marker_witness :
    (strL "x```y" = strL "x" ++ tick3 ++ strL "y" ∧ hasTick3 (strL "y") = false) ∧
    fenceStage (strL "```\nabc") = .ok (pyStrip (beforeLastTick3 (strL "abc"))) :=
  ⟨fence_strip_last_marker.1 (strL "x```y") (strL "x") (strL "y") rfl,
    fence_strip_last_marker.2.2.1 (strL "```\nabc") (strL "abc") rfl rfl⟩

/-! ## Parser shape lemmas -/

theorem loads_ok_inv {s : List Char} {j : Json} (h : loads s = .ok j) :
    ∃ r, parseValue (4 * s.length + 8) s = .ok (j, r) := by
  unfold loads at h
  split at h
  · rename_i v r heq
    split_ifs at h
    simp at h
    exact ⟨r, by rw [heq, h]⟩
  · simp at h

theorem parseValue_obj_head {f : Nat} {s r : List Char}
    {kvs : List (List Char × Json)}
    (h : parseValue f s = .ok (Json.obj kvs, r)) :
    ∃ rest, s.dropWhile jsonWsB = '{' :: rest := by
  cases f with
  | zero => simp [parseValue] at h
  | succ f =>
    unfold parseValue at h
    split at h
    · simp at h
    · rename_i c rest heq
      rw [heq]
      refine ⟨rest, ?_⟩
      split_ifs at h with h1 h2 h3
      · rw [h1]
      · obtain ⟨x, -, hy⟩ := exceptMap_ok h
        simp at hy
      · obtain ⟨x, -, hy⟩ := exceptMap_ok h
        simp at hy
      · simp at h
      · simp at h
      · simp at h
      · unfold parseNumber at h
        obtain ⟨x, -, hy⟩ := exceptMap_ok h
        simp at hy

theorem pyStrip_obj_head {B : List Char} {kvs : List (List Char × Json)}
    (h : loads (pyStrip B) = .ok (Json.obj kvs)) :
    ∃ t, pyStrip B = '{' :: t := by
  obtain ⟨r, hp⟩ := loads_ok_inv h
  obtain ⟨rest, hd⟩ := parseValue_obj_head hp
  rcases hB : pyStrip B with _ | ⟨c, t⟩
  · rw [hB] at hd
    simp at hd
  · have hws : pyIsSpace c = false := pyStrip_head_not hB
    have hjws : ¬jsonWsB c = true := by
      intro hj
      rw [jsonWs_py hj] at hws
      exact absurd hws (by simp)
    rw [hB, List.dropWhile_cons_of_neg hjws] at hd
    simp at hd
    exact ⟨t, by rw [hd.1]⟩

theorem begins_tick3_brace {t : List Char} : begins tick3 ('{' :: t) = false := by
  have hb : ('`' == '{') = false := by decide
  simp [begins, tick3, hb]

theorem pyStrip_fenceWrap (lang B : List Char) :
    pyStrip (fenceWrap lang B) = fenceWrap lang B := by
  have h1 : fenceWrap lang B =
      '`' :: (['`', '`'] ++ lang ++ '\n' :: (B ++ '\n' :: tick3)) := by
    simp [fenceWrap, tick3]
  have h2 : fenceWrap lang B =
      (tick3 ++ lang ++ '\n' :: (B ++ ['\n', '`', '`'])) ++ ['`'] := by
    simp [fenceWrap, tick3]
  unfold pyStrip lstrip
  have hl : List.dropWhile pyIsSpace (fenceWrap lang B) = fenceWrap lang B := by
    rw [h1]
    exact List.dropWhile_cons_of_neg (by decide)
  rw [hl, h2]
  exact rstrip_append_not (by decide) _

theorem begins_fenceWrap (lang B : List Char) :
    begins tick3 (fenceWrap lang B) = true := by
  have h1 : fenceWrap lang B =
      '`' :: '`' :: '`' :: (lang ++ '\n' :: (B ++ '\n' :: tick3)) := by
    simp [fenceWrap, tick3]
  rw [h1]
  simp [begins, tick3]

theorem splitNL_fenceWrap {lang : List Char} (hlang : '\n' ∉ lang) (B : List Char) :
    splitAfterFirstNL (fenceWrap lang B) = some (B ++ '\n' :: tick3) := by
  have h1 : fenceWrap lang B = (tick3 ++ lang) ++ '\n' :: (B ++ '\n' :: tick3) := by
    simp [fenceWrap]
  rw [h1]
  apply splitNL_append
  intro hmem
  rcases List.mem_append.mp hmem with h | h
  · exact absurd h (by decide)
  · exact hlang h

/-! ## C6 theorems -/

/-- C6: for any JSON body `B` that decodes to an object, wrapping it in
a leading fence line (triple backticks plus any newline-free language
tag) and a trailing fence line parses to exactly the same result as
parsing `B` alone; and on the spec's worked example the endpoint
returns `ok` with summary `"s"` and tags `["x","y","z"]`, inserts one
archive record with url `"http://a"`, the metrics row advances by one
event, and no fence marker appears in the parsed summary. -/
theorem fenced_parse_agrees :
    (∀ (lang B : List Char) (kvs : List (List Char × Json)), '\n' ∉ lang →
      loads (pyStrip B) = .ok (Json.obj kvs) →
      parseStage (fenceWrap lang B) = parseStage B) ∧
    (api_summarize ex8Env ex8Body store0).1 =
      .ok (strL "ok") (Json.str (strL "s"))
        (Json.arr [Json.str (strL "x"), Json.str (strL "y"), Json.str (strL "z")]) ∧
    (api_summarize ex8Env ex8Body store0).2.archived =
      [⟨strL "http://a", strL "A", Json.str (strL "s"),
        Json.arr [Json.str (strL "x"), Json.str (strL "y"), Json.str (strL "z")],
        ex8Env.now⟩] ∧
    (api_summarize ex8Env ex8Body store0).2.metrics = some ⟨1, 1, 400, 9 / 50⟩ ∧
    hasTick3 (strL "s") = false := by
  refine ⟨fun lang B kvs hlang hB => ?_, rfl, rfl, ?_, rfl⟩
  · obtain ⟨t, hBhead⟩ := pyStrip_obj_head hB
    have hBfence : begins tick3 (pyStrip B) = false := by
      rw [hBhead]
      exact begins_tick3_brace
    have hcut : beforeLastTick3 (B ++ '\n' :: tick3) = B ++ ['\n'] := by
      unfold beforeLastTick3
      rw [lastSplit_append_close]
    have hFS_F : fenceStage (pyStrip (fenceWrap lang B)) = .ok (pyStrip B) := by
      rw [pyStrip_fenceWrap]
      simp only [fenceStage, begins_fenceWrap, splitNL_fenceWrap hlang, if_true]
      rw [hcut, pyStrip_append_nl]
    have hFS_B : fenceStage (pyStrip B) = .ok (pyStrip B) := by
      simp [fenceStage, hBfence]
    simp only [parseStage]
    rw [hFS_F, hFS_B]
  · have h2 : (api_summarize ex8Env ex8Body store0).2 =
        metricsStep ex8Env ⟨[⟨strL "http://a", strL "A", Json.str (strL "s"),
          Json.arr [Json.str (strL "x"), Json.str (strL "y"), Json.str (strL "z")],
          ex8Env.now⟩], some row0⟩ := rfl
    rw [h2]
    simp [metricsStep, ex8Env, row0, updFields, round2]
    norm_num

/-- Witness for C6's universal part at a concrete body and language
tag. -/
theorem fenced_parse_agrees_witness :
    parseStage (fenceWrap (strL "json") innerTickBody) = parseStage innerTickBody :=
  fenced_parse_agrees.1 (strL "json") innerTickBody
    [(strL "summary", Json.str (strL "a```b")), (strL "tags", Json.arr [])]
    (by decide) rfl

/-! ## C7 theorems -/

/-- C7 counterexample: a response whose `tags` is a list containing
non-string elements does *not* fail as a malformed-upstream 502 — the
parse stage checks only `isinstance(tags, list)`, never the element
types, so it succeeds; the archive insert then runs, and the request
only fails later, at line 165, where pydantic's response-model
validation raises and the endpoint answers the framework's 500. -/
theorem tags_elements_unchecked_cex :
    parseStage numTagsText =
      .ok (Json.str (strL "s"), Json.arr [Json.bool true, Json.null]) ∧
    (summarize_tab numTagsEnv ex8Payload store0).1 = .serverError ∧
    (summarize_tab numTagsEnv ex8Payload store0).2.archived.length = 1 :=
  ⟨rfl, rfl, rfl⟩

/-- C7 amended: if the fence-stripped text does not parse as JSON the
request fails with a 502 whose detail carries the first 200 characters
of the *fence-stripped* text; if it parses to an object whose `summary`
is falsy (missing, empty, or otherwise falsy) or whose `tags` is not a
list, the request fails with a 502 carrying a fixed bounded detail
(sharing the generic `Vertex AI error:` prefix with transport
failures); any parse-stage failure detail becomes the 502 response of
the handler.  `tags` *element* types are not checked at the parse
stage: a list with a non-string element (or a non-string summary)
passes it, the archive insert proceeds, and the request then fails
pydantic response-model validation — surfacing as the framework's 500,
not as a malformed-upstream 502. -/
theorem parse_failures_502 :
    (∀ text raw1 : List Char, fenceStage (pyStrip text) = .ok raw1 →
      loads raw1 = .error () →
      parseStage text =
        .error (strL "Gemini returned non-JSON response: " ++ raw1.take 200) ∧
      (raw1.take 200).length ≤ 200) ∧
    (∀ (text raw1 : List Char) (kvs : List (List Char × Json)),
      fenceStage (pyStrip text) = .ok raw1 →
      loads raw1 = .ok (Json.obj kvs) →
      (pyTruthy (getD kvs (strL "summary") (Json.str [])) = false ∨
        isArrB (getD kvs (strL "tags") (Json.arr [])) = false) →
      parseStage text =
        .error (strL "Vertex AI error: Model returned unexpected structure")) ∧
    (∀ (env : Env) (payload : SummarizeRequest) (st : Store)
      (text d : List Char),
      env.genResult (buildPrompt payload) = .ok text →
      parseStage text = .error d →
      summarize_tab env payload st = (.httpError 502 d, st)) ∧
    (∀ (env : Env) (payload : SummarizeRequest) (st : Store)
      (text : List Char) (s t : Json),
      env.genResult (buildPrompt payload) = .ok text →
      parseStage text = .ok (s, t) →
      env.insertResult = .ok () →
      (isStrB s && isArrStrB t) = false →
      (summarize_tab env payload st).1 = .serverError ∧
      (summarize_tab env payload st).2.archived =
        st.archived ++ [⟨payload.url, payload.title, s, t, env.now⟩]) := by
  refine ⟨fun text raw1 hf hl => ⟨?_, ?_⟩,
    fun text raw1 kvs hf hl hbad => ?_,
    fun env payload st text d hg hp => ?_,
    fun env payload st text s t hg hp hi hbad => ⟨?_, ?_⟩⟩
  · simp [parseStage, hf, hl]
  · simp [List.length_take]
  · rcases hbad with hb | hb <;>
      simp [parseStage, hf, hl, extractFields, hb]
  · simp [summarize_tab, genDispatch, hg, hp]
  · simp [summarize_tab, genDispatch, hg, hp, hi, mkResponse, hbad]
  · simp [summarize_tab, genDispatch, hg, hp, hi, metricsStep_archived]

/-- Witness for the amended C7: a non-JSON response and an
empty-summary response each produce the corresponding 502 detail, and
a list of non-string tags reaches the response-validation 500 after
the insert. -/
theorem parse_failures_502_witness :
    parseStage (strL "junk") =
      .error (strL "Gemini returned non-JSON response: " ++ (strL "junk").take 200) ∧
    parseStage (strL "\x7b\"summary\":\"\",\"tags\":[]\x7d") =
      .error (strL "Vertex AI error: Model returned unexpected structure") ∧
    (summarize_tab numTagsEnv ex8Payload store0).1 = .serverError :=
  ⟨(parse_failures_502.1 (strL "junk") (strL "junk") rfl rfl).1,
    parse_failures_502.2.1 (strL "\x7b\"summary\":\"\",\"tags\":[]\x7d")
      (strL "\x7b\"summary\":\"\",\"tags\":[]\x7d")
      [(strL "summary", Json.str []), (strL "tags", Json.arr [])]
      rfl rfl (Or.inl rfl),
    (parse_failures_502.2.2.2 numTagsEnv ex8Payload store0 numTagsText
      (Json.str (strL "s")) (Json.arr [Json.bool true, Json.null])
      rfl rfl rfl rfl).1⟩

/-! ## C8 theorems -/

/-- C8 counterexample: a request body whose `url` is the empty string
passes pydantic validation (`url : str` declares no non-emptiness
constraint) and the request proceeds through the whole pipeline with
side effects — a record is archived — instead of failing validation
with no side effects as claimed. -/
theorem empty_url_accepted_cex :
    validateReq emptyUrlBody = .ok ⟨[], strL "t", strL "c"⟩ ∧
    (api_summarize ex8Env emptyUrlBody store0).1 =
      .ok (strL "ok") (Json.str (strL "s"))
        (Json.arr [Json.str (strL "x"), Json.str (strL "y"), Json.str (strL "z")]) ∧
    (api_summarize ex8Env emptyUrlBody store0).2.archived.length = 1 :=
  ⟨rfl, rfl, rfl⟩

/-- C8 amended: a body whose `url`, `title` or `content` field is not a
string fails request validation; any validation failure is rejected
before the handler runs, leaving the store untouched (no model call, no
insert, no metrics access); but an empty-string `url` with string
`title`/`content` passes validation and proceeds. -/
theorem validation_nonstring_rejected :
    (∀ kvs : List (List Char × Json),
      (isStrB (getD kvs (strL "url") Json.null) = false ∨
        isStrB (getD kvs (strL "title") Json.null) = false ∨
        isStrB (getD kvs (strL "content") Json.null) = false) →
      ∃ d, validateReq (Json.obj kvs) = .error d) ∧
    (∀ (env : Env) (body : Json) (st : Store) (d : List Char),
      validateReq body = .error d →
      api_summarize env body st = (.httpError 422 d, st)) ∧
    (∀ t c : List Char, validateReq (Json.obj [(strL "url", Json.str []),
      (strL "title", Json.str t), (strL "content", Json.str c)]) = .ok ⟨[], t, c⟩) := by
  refine ⟨fun kvs hbad => ?_, fun env body st d hv => ?_, fun t c => rfl⟩
  · simp only [validateReq]
    rcases hbad with hb | hb | hb
    · rcases hu : getD kvs (strL "url") Json.null with _ | b | q | u | es | okvs <;>
        first
          | exact ⟨_, rfl⟩
          | simp [isStrB, hu] at hb
    · rcases hu : getD kvs (strL "url") Json.null with _ | b | q | u | es | okvs <;>
        first
          | exact ⟨_, rfl⟩
          | (rcases ht : getD kvs (strL "title") Json.null with _ | b2 | q2 | t2 | es2 | okvs2 <;>
              first
                | exact ⟨_, rfl⟩
                | simp [isStrB, ht] at hb)
    · rcases hu : getD kvs (strL "url") Json.null with _ | b | q | u | es | okvs <;>
        first
          | exact ⟨_, rfl⟩
          | (rcases ht : getD kvs (strL "title") Json.null with _ | b2 | q2 | t2 | es2 | okvs2 <;>
              first
                | exact ⟨_, rfl⟩
                | (rcases hc : getD kvs (strL "content") Json.null with _ | b3 | q3 | c3 | es3 | okvs3 <;>
                    first
                      | exact ⟨_, rfl⟩
                      | simp [isStrB, hc] at hb))
  · simp [api_summarize, hv]

/-- Witness for the amended C8: a numeric `url` is rejected, a
non-object body is rejected before the handler with the store
unchanged, and an empty-string `url` is accepted. -/
theorem validation_nonstring_rejected_witness :
    (∃ d, validateReq (Json.obj numUrlKvs) = .error d) ∧
    api_summarize ex8Env (Json.str []) store0 =
      (.httpError 422 (strL "Input should be a valid dictionary or object"), store0) ∧
    validateReq (Json.obj [(strL "url", Json.str []), (strL "title", Json.str (strL "t")),
      (strL "content", Json.str (strL "c"))]) = .ok ⟨[], strL "t", strL "c"⟩ :=
  ⟨validation_nonstring_rejected.1 numUrlKvs (Or.inl rfl),
    validation_nonstring_rejected.2.1 ex8Env (Json.str []) store0 _ rfl,
    validation_nonstring_rejected.2.2 (strL "t") (strL "c")⟩

end TabHarvester
